import Mathlib

/-!
Verification of the electricity-consumption dashboard (`src/app.py`).

The script loads a CSV, heuristically maps its columns onto four canonical
roles, derives `Energy_kWh` and `Cost`, and serves a dashboard whose single
callback `update_dashboard` recomputes three aggregations and a summary
string on every device-filter change.  Below, the column-detection loop,
the derivation pipeline and the callback are embedded as executable Lean
definitions; numeric values are modelled as exact rationals.
-/

/-- The four canonical semantic roles the column detector must fill
(`required_cols` in `app.py` is the list of their names). -/
inductive Role where
  | date
  | device
  | power
  | hours
deriving DecidableEq, Repr

/-- Checks whether `pat` matches at the head of `s` (character-wise). -/
def matchAt : List Char → List Char → Bool
  | [], _ => true
  | _ :: _, [] => false
  | p :: ps, c :: cs => p = c && matchAt ps cs

/-- Checks whether `pat` occurs as a contiguous sublist of `s`. -/
def hasSubAux (pat : List Char) : List Char → Bool
  | [] => matchAt pat []
  | c :: cs => matchAt pat (c :: cs) || hasSubAux pat cs

/-- Substring containment on strings, modelling Python's `in` operator. -/
def containsSub (s pat : String) : Bool := hasSubAux pat.data s.data

/-- ASCII lowercasing, modelling Python's `str.lower` on the column names. -/
def lowerStr (s : String) : String := ⟨s.data.map Char.toLower⟩

/-- The `if/elif` keyword chain of the detection loop in `app.py`
(lines 22-31): the first role, in the fixed order Date, Device, Power,
Hours, whose keyword set the lowercased column name contains. -/
def firstRole (c : String) : Option Role :=
  let cname := lowerStr c
  if containsSub cname "date" || containsSub cname "day" then some Role.date
  else if containsSub cname "device" || containsSub cname "appliance" then some Role.device
  else if containsSub cname "power" || containsSub cname "watt" then some Role.power
  else if containsSub cname "hour" || containsSub cname "usage" then some Role.hours
  else none

/-- One iteration of the detection loop: if the column's `if/elif` chain
selects a role, `col_map[role]` is overwritten with this column. -/
def colMapStep (m : Role → Option String) (col : String) : Role → Option String :=
  match firstRole col with
  | some r => fun r' => if r' = r then some col else m r'
  | none => m

/-- The `col_map` dictionary built by the detection loop over the source
column names (`app.py` lines 21-31), as a map from role to source column. -/
def col_map (cols : List String) : Role → Option String :=
  cols.foldl colMapStep (fun _ => none)

/-- `required_cols` of `app.py` line 34, as roles. -/
def required_cols : List Role := [Role.date, Role.device, Role.power, Role.hours]

/-- The `missing` list of `app.py` line 35: required roles absent from
`col_map`, in the required order. -/
def missing (cols : List String) : List Role :=
  required_cols.filter (fun r => (col_map cols r).isNone)

/-- The completeness check of `app.py` lines 35-37: a complete mapping is
returned, or a `SchemaDetectionError` (`ValueError` in the code) carrying
the missing roles aborts startup. -/
def schemaCheck (cols : List String) : Except (List Role) (Role → Option String) :=
  if missing cols = [] then Except.ok (col_map cols) else Except.error (missing cols)

/-- Spec-side per-role keyword test (pure containment, no priority):
whether the column name case-insensitively contains one of the role's
keywords. -/
def matchesKeywords (c : String) : Role → Bool
  | Role.date => containsSub (lowerStr c) "date" || containsSub (lowerStr c) "day"
  | Role.device => containsSub (lowerStr c) "device" || containsSub (lowerStr c) "appliance"
  | Role.power => containsSub (lowerStr c) "power" || containsSub (lowerStr c) "watt"
  | Role.hours => containsSub (lowerStr c) "hour" || containsSub (lowerStr c) "usage"

/-- Spec-side restatement of the priority rule: the first role in the
fixed sequence Date, Device, Power, Hours whose keywords the name
contains. -/
def specFirstRole (c : String) : Option Role := required_cols.find? (matchesKeywords c)

/-- Splits a character list on the dash character (used by the date
parser). -/
def splitDashAux (acc : List Char) : List Char → List (List Char)
  | [] => [acc.reverse]
  | c :: cs => if c = '-' then acc.reverse :: splitDashAux [] cs else splitDashAux (c :: acc) cs

/-- Value of a decimal digit character, or `none`. -/
def digitVal (c : Char) : Option Nat :=
  if '0' ≤ c ∧ c ≤ '9' then some (c.toNat - 48) else none

/-- Reads a non-empty all-digit character list as a natural number. -/
def natOfCharsAux (acc : Nat) : List Char → Option Nat
  | [] => some acc
  | c :: cs =>
    match digitVal c with
    | some d => natOfCharsAux (acc * 10 + d) cs
    | none => none

/-- Reads a non-empty all-digit character list as a natural number. -/
def natOfChars (l : List Char) : Option Nat :=
  if l = [] then none else natOfCharsAux 0 l

/-- Models `pd.to_datetime(col, errors="coerce")` on an ISO `YYYY-MM-DD`
string: a parsed date is encoded as the naturally ordered number
`y*10000 + m*100 + d`; any unparsable value coerces to `none` (pandas
`NaT`), never an error. -/
def parseDate (s : String) : Option Nat :=
  match splitDashAux [] s.data with
  | [y, m, d] =>
    match natOfChars y, natOfChars m, natOfChars d with
    | some yn, some mn, some dn =>
      if 1 ≤ mn ∧ mn ≤ 12 ∧ 1 ≤ dn ∧ dn ≤ 31 then some (yn * 10000 + mn * 100 + dn)
      else none
    | _, _, _ => none
  | _ => none

/-- A row after renaming to canonical columns but before the "prepare
data" step: the raw date string plus the two numeric fields. -/
structure NRow where
  dateRaw : String
  device : String
  power : ℚ
  hours : ℚ
deriving DecidableEq, Repr

/-- `COST_PER_KWH` of `app.py` line 44. -/
def COST_PER_KWH : ℚ := 0.15

/-- A fully prepared row: parsed date (`none` = invalid-date marker) and
the derived `Energy_kWh` and `Cost` columns. -/
structure Row where
  date : Option Nat
  device : String
  power : ℚ
  hours : ℚ
  energy : ℚ
  cost : ℚ
deriving DecidableEq, Repr

/-- The "prepare data" step of `app.py` lines 43-46 on one row: parse the
date with coercion, derive `Energy_kWh = Power_Watts * Hours_Used / 1000`
and `Cost = Energy_kWh * COST_PER_KWH`. -/
def prepareRow (r : NRow) : Row :=
  let e := r.power * r.hours / 1000
  { date := parseDate r.dateRaw
    device := r.device
    power := r.power
    hours := r.hours
    energy := e
    cost := e * COST_PER_KWH }

/-- The "prepare data" step over the whole table: every row survives. -/
def prepare (rs : List NRow) : List Row := rs.map prepareRow

/-- Floor of a rational as an integer (numerator floor-divided by
denominator). -/
def qfloor (q : ℚ) : ℤ := Int.fdiv q.num q.den

/-- Round a rational to the nearest integer, ties to even — the rounding
used when Python formats a float with `:.2f`. -/
def roundHalfEven (q : ℚ) : ℤ :=
  let f := qfloor q
  let r := q - (f : ℚ)
  if r < (1 : ℚ)/2 then f
  else if (1 : ℚ)/2 < r then f + 1
  else if f % 2 = 0 then f else f + 1

/-- Two-digit zero-padding for the fractional part. -/
def pad2 (n : Nat) : String := if n < 10 then "0" ++ Nat.repr n else Nat.repr n

/-- Renders a number of cents as a decimal string with two fraction
digits. -/
def fmtCents (n : Nat) : String := Nat.repr (n / 100) ++ "." ++ pad2 (n % 100)

/-- Models Python's `f"{x:.2f}"`: round to two decimal places (ties to
even) and render with exactly two fraction digits. -/
def fmt2 (q : ℚ) : String :=
  let n := roundHalfEven (q * 100)
  if n < 0 then "-" ++ fmtCents (Int.toNat (-n)) else fmtCents (Int.toNat n)

/-- The device filter of `app.py` line 88: the full table for `"All"`,
otherwise the rows whose `Device` equals the selection. -/
def filtered_df (rows : List Row) (sel : String) : List Row :=
  if sel = "All" then rows else rows.filter (fun r => r.device = sel)

/-- Sum of `Energy_kWh` over a table (`df["Energy_kWh"].sum()`). -/
def sumEnergy (rows : List Row) : ℚ := (rows.map Row.energy).sum

/-- Sum of `Cost` over a table (`df["Cost"].sum()`). -/
def sumCost (rows : List Row) : ℚ := (rows.map Row.cost).sum

/-- The distinct parsed dates of a table, ascending — the group keys of
`groupby("Date")`; rows with the invalid-date marker (`NaT`) produce no
key, as pandas drops null group keys. -/
def dateKeys (rows : List Row) : List Nat :=
  List.insertionSort (· ≤ ·) ((rows.filterMap Row.date).dedup)

/-- `filtered.groupby("Date", as_index=False)[field].sum()`: one `(date,
sum)` pair per distinct valid date, ascending. -/
def groupByDate (rows : List Row) (f : Row → ℚ) : List (Nat × ℚ) :=
  (dateKeys rows).map (fun d => (d, ((rows.filter (fun r => r.date = some d)).map f).sum))

/-- The distinct device labels of a table, ascending — the group keys of
`groupby("Device")`. -/
def deviceKeys (rows : List Row) : List String :=
  List.insertionSort (· ≤ ·) ((rows.map Row.device).dedup)

/-- Total `Energy_kWh` attributed to one device label. -/
def deviceTotal (rows : List Row) (d : String) : ℚ :=
  ((rows.filter (fun r => r.device = d)).map Row.energy).sum

/-- `df.groupby("Device", as_index=False)["Energy_kWh"].sum()` of
`app.py` line 96. -/
def groupByDevice (rows : List Row) : List (String × ℚ) :=
  (deviceKeys rows).map (fun d => (d, deviceTotal rows d))

/-- The four outputs of the callback: the data behind the three figures
plus the summary line. -/
structure Output where
  daily : List (Nat × ℚ)
  deviceSum : List (String × ℚ)
  dailyCost : List (Nat × ℚ)
  summary : String
deriving Repr

/-- The callback `update_dashboard` of `app.py` lines 87-109: filter by
the selected device, group the filtered rows by date for the energy and
cost series, group the unfiltered table by device, and format the summary
line. -/
def update_dashboard (rows : List Row) (sel : String) : Output :=
  let fd := filtered_df rows sel
  { daily := groupByDate fd Row.energy
    deviceSum := groupByDevice rows
    dailyCost := groupByDate fd Row.cost
    summary := "🔋 Total Energy Used: " ++ fmt2 (sumEnergy fd) ++ " kWh | 💰 Total Cost: $"
      ++ fmt2 (sumCost fd) }

/-- The callback with the process state (the loaded table) threaded
explicitly: the code never reassigns `df`, so the state it leaves behind
is the state it received. -/
def updateDashboardState (st : List Row) (sel : String) : Output × List Row :=
  (update_dashboard st sel, st)

/-- Rows with `Device == X`, or the whole table for `"All"` — stated from
the claim's words, to be compared against `filtered_df`. -/
def specFilteredRows (rows : List Row) (sel : String) : List Row :=
  if sel = "All" then rows else rows.filter (fun r => r.device = sel)

/-- The sample raw table of spec section 8: device A logs (2025-01-01,
1000 W, 2 h) and (2025-01-02, 1000 W, 3 h); device B logs (2025-01-01,
500 W, 4 h). -/
def sampleN : List NRow :=
  [⟨"2025-01-01", "A", 1000, 2⟩, ⟨"2025-01-02", "A", 1000, 3⟩, ⟨"2025-01-01", "B", 500, 4⟩]

/-- The sample table after preparation. -/
def sampleRows : List Row := prepare sampleN

/-- A row whose raw date does not parse: it carries the invalid-date
marker after preparation. -/
def rBad : Row := prepareRow ⟨"oops", "B", 200, 5⟩

/-- Column names on which the keyword condition of claim C3 holds for all
four roles, yet the resolver leaves `Power_Watts` unassigned:
`Device_Power` is consumed by the earlier Device role. -/
def cexCols : List String := ["Date", "Device_Power", "Hours"]

/-! ### Column resolver lemmas -/

theorem colMapStep_eq (m : Role → Option String) (c : String) (r : Role) :
    colMapStep m c r = if firstRole c = some r then some c else m r := by
  unfold colMapStep
  cases h : firstRole c with
  | none => simp
  | some r₀ =>
    by_cases hr : r = r₀
    · subst hr; simp
    · simp only [if_neg hr, Option.some.injEq]
      exact (if_neg (fun e => hr e.symm)).symm

theorem foldl_col_map (cs : List String) (m : Role → Option String) (r : Role) :
    (cs.foldl colMapStep m) r =
      (cs.reverse.find? (fun c => decide (firstRole c = some r))).or (m r) := by
  induction cs generalizing m with
  | nil => simp
  | cons c cs ih =>
    rw [List.foldl_cons, ih, List.reverse_cons, List.find?_append, Option.or_assoc]
    congr 1
    rw [colMapStep_eq, List.find?_singleton]
    by_cases h : firstRole c = some r
    · simp [h]
    · simp [h]

theorem firstRole_eq_spec (c : String) : firstRole c = specFirstRole c := by
  unfold firstRole specFirstRole required_cols
  cases h1 : containsSub (lowerStr c) "date" || containsSub (lowerStr c) "day" <;>
    cases h2 : containsSub (lowerStr c) "device" || containsSub (lowerStr c) "appliance" <;>
      cases h3 : containsSub (lowerStr c) "power" || containsSub (lowerStr c) "watt" <;>
        cases h4 : containsSub (lowerStr c) "hour" || containsSub (lowerStr c) "usage" <;>
          simp [List.find?, matchesKeywords, h1, h2, h3, h4]

theorem col_map_eq_find (cols : List String) (r : Role) :
    col_map cols r = cols.reverse.find? (fun c => decide (specFirstRole c = some r)) := by
  have hp : (fun c => decide (firstRole c = some r))
      = (fun c => decide (specFirstRole c = some r)) := by
    funext c; rw [firstRole_eq_spec]
  unfold col_map
  rw [foldl_col_map, hp]
  cases cols.reverse.find? (fun c => decide (specFirstRole c = some r)) <;> rfl

theorem col_map_isSome_iff (cols : List String) (r : Role) :
    (col_map cols r).isSome ↔ ∃ c ∈ cols, specFirstRole c = some r := by
  rw [col_map_eq_find]
  simp [List.find?_isSome]

theorem mem_required (r : Role) : r ∈ required_cols := by
  cases r <;> simp [required_cols]

theorem missing_eq_nil_iff (cols : List String) :
    missing cols = [] ↔ ∀ r : Role, ∃ c ∈ cols, specFirstRole c = some r := by
  unfold missing
  rw [List.filter_eq_nil_iff]
  constructor
  · intro h r
    rw [← col_map_isSome_iff]
    have := h r (mem_required r)
    simp only [Option.isNone_iff_eq_none] at this
    rcases hc : col_map cols r with _ | v
    · exact absurd hc this
    · rfl
  · intro h r _
    have := (col_map_isSome_iff cols r).mpr (h r)
    simp only [Option.isNone_iff_eq_none]
    intro hn
    rw [hn] at this
    exact Bool.false_ne_true this

theorem missing_eq_spec_filter (cols : List String) :
    missing cols
      = required_cols.filter (fun r => decide (¬ ∃ c ∈ cols, specFirstRole c = some r)) := by
  unfold missing
  refine List.filter_congr (fun r _ => ?_)
  rw [Bool.eq_iff_iff]
  simp only [Option.isNone_iff_eq_none, decide_eq_true_eq]
  rw [← col_map_isSome_iff]
  rcases hc : col_map cols r with _ | v <;> simp [hc]

/-! ### Aggregation lemmas -/

theorem sum_map_ite_zero_of_not_mem {κ : Type} [DecidableEq κ] (x : κ) (e : ℚ) :
    ∀ ks : List κ, x ∉ ks → (ks.map (fun k => if x = k then e else 0)).sum = 0 := by
  intro ks
  induction ks with
  | nil => intro _; simp
  | cons k ks ih =>
    intro hx
    have hxk : ¬ x = k := by
      intro e'; exact hx (by rw [e']; exact List.mem_cons_self k ks)
    rw [List.map_cons, List.sum_cons, if_neg hxk,
      ih (fun h => hx (List.mem_cons_of_mem k h)), add_zero]

theorem sum_map_ite_zero {κ : Type} [DecidableEq κ] (x : κ) (e : ℚ) :
    ∀ ks : List κ, ks.Nodup → x ∈ ks → (ks.map (fun k => if x = k then e else 0)).sum = e := by
  intro ks
  induction ks with
  | nil => intro _ h; simp at h
  | cons k ks ih =>
    intro hnd hx
    rw [List.map_cons, List.sum_cons]
    by_cases h : x = k
    · subst h
      rw [if_pos rfl, sum_map_ite_zero_of_not_mem x e ks (List.nodup_cons.mp hnd).1, add_zero]
    · have hx' : x ∈ ks := by
        rcases List.mem_cons.mp hx with h1 | h1
        · exact absurd h1 h
        · exact h1
      rw [if_neg h, ih (List.nodup_cons.mp hnd).2 hx', zero_add]

theorem sum_fiber {κ α : Type} [DecidableEq κ] (key : α → κ) (f : α → ℚ) :
    ∀ (l : List α) (ks : List κ), ks.Nodup → (∀ a ∈ l, key a ∈ ks) →
      (ks.map (fun k => ((l.filter (fun a => key a = k)).map f).sum)).sum = (l.map f).sum := by
  intro l
  induction l with
  | nil => intro ks _ _; simp
  | cons a l ih =>
    intro ks hnd hcov
    have hstep : ∀ k, (((a :: l).filter (fun x => key x = k)).map f).sum
        = (if key a = k then f a else 0) + ((l.filter (fun x => key x = k)).map f).sum := by
      intro k
      by_cases h : key a = k
      · simp [List.filter_cons, h]
      · simp [List.filter_cons, h]
    simp only [hstep]
    rw [List.sum_map_add, sum_map_ite_zero (key a) (f a) ks hnd (hcov a (List.mem_cons_self a l)),
      ih ks hnd (fun x hx => hcov x (List.mem_cons_of_mem a hx)), List.map_cons, List.sum_cons]

theorem groupByDate_append_invalid (rows : List Row) (r : Row) (h : r.date = none)
    (f : Row → ℚ) :
    groupByDate (rows ++ [r]) f = groupByDate rows f := by
  have hkeys : dateKeys (rows ++ [r]) = dateKeys rows := by
    unfold dateKeys
    rw [List.filterMap_append]
    simp [List.filterMap_cons, h]
  have hfil : ∀ d, ((rows ++ [r]).filter (fun x => x.date = some d))
      = rows.filter (fun x => x.date = some d) := by
    intro d
    rw [List.filter_append]
    simp [List.filter_cons, h]
  unfold groupByDate
  rw [hkeys]
  simp only [hfil]

theorem filtered_df_append_match (rows : List Row) (r : Row) (sel : String)
    (hs : sel = "All" ∨ sel = r.device) :
    filtered_df (rows ++ [r]) sel = filtered_df rows sel ++ [r] := by
  unfold filtered_df
  by_cases hAll : sel = "All"
  · simp [hAll]
  · rcases hs with h | h
    · exact absurd h hAll
    · subst h
      rw [if_neg hAll, if_neg hAll, List.filter_append]
      simp [List.filter_cons]

theorem deviceTotal_append_self (rows : List Row) (r : Row) :
    deviceTotal (rows ++ [r]) r.device = deviceTotal rows r.device + r.energy := by
  unfold deviceTotal
  rw [List.filter_append]
  simp [List.filter_cons]

theorem sumEnergy_append_one (rows : List Row) (r : Row) :
    sumEnergy (rows ++ [r]) = sumEnergy rows + r.energy := by
  simp [sumEnergy]

theorem sumCost_append_one (rows : List Row) (r : Row) :
    sumCost (rows ++ [r]) = sumCost rows + r.cost := by
  simp [sumCost]

/-! ### Claims -/

/-- C1: for every row of the normalized dataset, `Energy_kWh` equals
`Power_Watts * Hours_Used / 1000` exactly, and `Cost` equals
`Energy_kWh * COST_PER_KWH` with `COST_PER_KWH = 0.15`. -/
theorem C1_energy_cost_derivation (rs : List NRow) (row : Row) (h : row ∈ prepare rs) :
    row.energy = row.power * row.hours / 1000 ∧ row.cost = row.energy * COST_PER_KWH := by
  unfold prepare at h
  rcases List.mem_map.mp h with ⟨nr, _, rfl⟩
  exact ⟨rfl, rfl⟩

/-- Witness for C1 at the first sample row. -/
theorem C1_witness :
    (prepareRow ⟨"2025-01-01", "A", 1000, 2⟩).energy
        = (prepareRow ⟨"2025-01-01", "A", 1000, 2⟩).power
          * (prepareRow ⟨"2025-01-01", "A", 1000, 2⟩).hours / 1000
    ∧ (prepareRow ⟨"2025-01-01", "A", 1000, 2⟩).cost
        = (prepareRow ⟨"2025-01-01", "A", 1000, 2⟩).energy * COST_PER_KWH :=
  C1_energy_cost_derivation sampleN (prepareRow ⟨"2025-01-01", "A", 1000, 2⟩)
    (List.mem_map_of_mem prepareRow (List.mem_cons_self _ _))

/-- Counterexample to C2 as stated: on the spec's own sample data with
device `A` selected, the summary is not the undecorated string the claim
gives — the code prefixes the two fields with the 🔋 and 💰 emoji. -/
theorem C2_counterexample :
    (update_dashboard sampleRows "A").summary
      ≠ "Total Energy Used: 5.00 kWh | Total Cost: $0.75" := by
  with_unfolding_all decide

/-- C2 (amended): the summary reports the sum of `Energy_kWh` and of
`Cost` over exactly the rows with `Device == X` (the full dataset for
`"All"`), each rounded to two decimals, in the format
`🔋 Total Energy Used: E kWh | 💰 Total Cost: $C`. -/
theorem C2_summary_formula (rows : List Row) (sel : String) :
    (update_dashboard rows sel).summary
      = "🔋 Total Energy Used: " ++ fmt2 ((specFilteredRows rows sel).map Row.energy).sum
        ++ " kWh | 💰 Total Cost: $" ++ fmt2 ((specFilteredRows rows sel).map Row.cost).sum :=
  rfl

/-- Counterexample to C3 as stated: in `cexCols` every role has a
keyword-containing column (so the claimed iff promises a complete
mapping), yet the resolver leaves `Power_Watts` unmapped, because the
only power-matching column is consumed by the earlier Device role. -/
theorem C3_counterexample :
    (∀ r : Role, cexCols.any (fun c => matchesKeywords c r) = true)
    ∧ col_map cexCols Role.power = none
    ∧ missing cexCols = [Role.power] := by
  refine ⟨fun r => ?_, by decide, by decide⟩
  cases r <;> decide

/-- C3 (amended): the resolver fills all four roles iff every role is the
first matching role (in the fixed order Date, Device, Power, Hours) of
some column; otherwise ingestion fails with a `SchemaDetectionError`
listing exactly the roles left unassigned by that first-match rule, and
no dashboard is served. -/
theorem C3_schema_detection (cols : List String) :
    ((∀ r : Role, (col_map cols r).isSome)
        ↔ (∀ r : Role, ∃ c ∈ cols, specFirstRole c = some r))
    ∧ ((∀ r : Role, ∃ c ∈ cols, specFirstRole c = some r)
        → schemaCheck cols = Except.ok (col_map cols))
    ∧ (∀ errs, schemaCheck cols = Except.error errs →
        errs = required_cols.filter (fun r => decide (¬ ∃ c ∈ cols, specFirstRole c = some r))
        ∧ errs ≠ []) := by
  refine ⟨?_, ?_, ?_⟩
  · constructor
    · intro h r; exact (col_map_isSome_iff cols r).mp (h r)
    · intro h r; exact (col_map_isSome_iff cols r).mpr (h r)
  · intro h
    unfold schemaCheck
    rw [if_pos ((missing_eq_nil_iff cols).mpr h)]
  · intro errs herr
    unfold schemaCheck at herr
    by_cases hm : missing cols = []
    · rw [if_pos hm] at herr; cases herr
    · rw [if_neg hm] at herr
      injection herr with h2
      subst h2
      exact ⟨missing_eq_spec_filter cols, hm⟩

/-- Witness for C3 at the one-column table `["Date"]`: the error lists the
three roles no column first-matches. -/
theorem C3_witness :
    ([Role.device, Role.power, Role.hours] : List Role)
        = required_cols.filter
            (fun r => decide (¬ ∃ c ∈ (["Date"] : List String), specFirstRole c = some r))
    ∧ ([Role.device, Role.power, Role.hours] : List Role) ≠ [] :=
  (C3_schema_detection ["Date"]).2.2 [Role.device, Role.power, Role.hours] (by rfl)

/-- C4: the per-device energy totals sum, across all devices, to the sum
of `Energy_kWh` over the entire unfiltered dataset. -/
theorem C4_device_totals_conservation (rows : List Row) :
    ((groupByDevice rows).map Prod.snd).sum = sumEnergy rows := by
  unfold groupByDevice deviceKeys sumEnergy
  rw [List.map_map]
  have hperm : (List.insertionSort (· ≤ ·) ((rows.map Row.device).dedup)).Perm
      ((rows.map Row.device).dedup) := List.perm_insertionSort _ _
  rw [(hperm.map _).sum_eq]
  have hcomp : (Prod.snd ∘ fun d : String => (d, deviceTotal rows d))
      = fun d => deviceTotal rows d := rfl
  rw [hcomp]
  unfold deviceTotal
  exact sum_fiber Row.device Row.energy rows ((rows.map Row.device).dedup)
    (List.nodup_dedup _) (fun a ha => List.mem_dedup.mpr (List.mem_map_of_mem Row.device ha))

/-- C5: the per-device totals output of the callback is computed from the
unfiltered table and is therefore identical for any two selections. -/
theorem C5_device_totals_unfiltered (rows : List Row) (sel₁ sel₂ : String) :
    (update_dashboard rows sel₁).deviceSum = groupByDevice rows
    ∧ (update_dashboard rows sel₁).deviceSum = (update_dashboard rows sel₂).deviceSum :=
  ⟨rfl, rfl⟩

/-- C6: a row carrying the invalid-date marker is excluded from the daily
energy and daily cost series, but its `Energy_kWh` and `Cost` still
contribute to its device's total and to the filtered summary sums
whenever the selection covers the row. -/
theorem C6_invalid_date_row (rows : List Row) (r : Row) (sel : String)
    (hd : r.date = none) (hs : sel = "All" ∨ sel = r.device) :
    (update_dashboard (rows ++ [r]) sel).daily = (update_dashboard rows sel).daily
    ∧ (update_dashboard (rows ++ [r]) sel).dailyCost = (update_dashboard rows sel).dailyCost
    ∧ deviceTotal (rows ++ [r]) r.device = deviceTotal rows r.device + r.energy
    ∧ sumEnergy (filtered_df (rows ++ [r]) sel) = sumEnergy (filtered_df rows sel) + r.energy
    ∧ sumCost (filtered_df (rows ++ [r]) sel) = sumCost (filtered_df rows sel) + r.cost := by
  have hfd := filtered_df_append_match rows r sel hs
  refine ⟨?_, ?_, deviceTotal_append_self rows r, ?_, ?_⟩
  · show groupByDate (filtered_df (rows ++ [r]) sel) Row.energy
        = groupByDate (filtered_df rows sel) Row.energy
    rw [hfd, groupByDate_append_invalid _ r hd]
  · show groupByDate (filtered_df (rows ++ [r]) sel) Row.cost
        = groupByDate (filtered_df rows sel) Row.cost
    rw [hfd, groupByDate_append_invalid _ r hd]
  · rw [hfd, sumEnergy_append_one]
  · rw [hfd, sumCost_append_one]

/-- Witness for C6: appending the bad-date row for device `B` leaves the
daily energy series unchanged. -/
theorem C6_witness :
    (update_dashboard (sampleRows ++ [rBad]) "B").daily
      = (update_dashboard sampleRows "B").daily :=
  (C6_invalid_date_row sampleRows rBad "B" rfl (Or.inr rfl)).1

/-- C7: the detection loop assigns each column to at most its first
matching role in the fixed sequence Date, Device, Power, Hours, and among
columns whose first matching role is `r`, the last in iteration order
wins: `col_map[r]` is the first such column of the reversed list. -/
theorem C7_first_match_last_wins (cols : List String) (r : Role) :
    col_map cols r = cols.reverse.find? (fun c => decide (specFirstRole c = some r)) :=
  col_map_eq_find cols r

/-- C8: normalization is non-fatal for every input — the prepared table
has one row per raw row (none dropped), each prepared row's date is the
coerced parse of its raw date, with failures becoming the `none` marker,
as for the unparsable value `"oops"`. -/
theorem C8_date_parse_nonfatal (rs : List NRow) :
    (prepare rs).length = rs.length
    ∧ (∀ i : Nat, (prepare rs)[i]? = (rs[i]?).map prepareRow)
    ∧ (∀ nr : NRow, (prepareRow nr).date = parseDate nr.dateRaw)
    ∧ parseDate "oops" = none := by
  refine ⟨List.length_map _ _, fun i => ?_, fun nr => rfl, rfl⟩
  unfold prepare
  rw [List.getElem?_map]

/-- C9: the callback leaves the loaded dataset unchanged — the threaded
state it returns is the state it received, and the filtered table is a
non-destructive sublist view of the source table. -/
theorem C9_no_mutation (rows : List Row) (sel : String) :
    (updateDashboardState rows sel).2 = rows
    ∧ List.Sublist (filtered_df rows sel) rows := by
  refine ⟨rfl, ?_⟩
  unfold filtered_df
  by_cases h : sel = "All"
  · rw [if_pos h]
  · rw [if_neg h]; exact List.filter_sublist _

/-- C10: selecting a device that is neither `"All"` nor present in the
data does not fail: the filtered table and both daily series are empty
and the summary reports 0.00 kWh and $0.00. -/
theorem C10_unknown_device (rows : List Row) (sel : String)
    (h1 : sel ≠ "All") (h2 : ∀ r ∈ rows, r.device ≠ sel) :
    filtered_df rows sel = []
    ∧ (update_dashboard rows sel).daily = []
    ∧ (update_dashboard rows sel).dailyCost = []
    ∧ (update_dashboard rows sel).summary
        = "🔋 Total Energy Used: 0.00 kWh | 💰 Total Cost: $0.00" := by
  have hf : filtered_df rows sel = [] := by
    unfold filtered_df
    rw [if_neg h1]
    exact List.filter_eq_nil_iff.mpr (fun a ha => by simpa using h2 a ha)
  refine ⟨hf, ?_, ?_, ?_⟩
  · show groupByDate (filtered_df rows sel) Row.energy = []
    rw [hf]; rfl
  · show groupByDate (filtered_df rows sel) Row.cost = []
    rw [hf]; rfl
  · show "🔋 Total Energy Used: " ++ fmt2 (sumEnergy (filtered_df rows sel))
        ++ " kWh | 💰 Total Cost: $" ++ fmt2 (sumCost (filtered_df rows sel))
      = "🔋 Total Energy Used: 0.00 kWh | 💰 Total Cost: $0.00"
    rw [hf]
    with_unfolding_all rfl

/-- Witness for C10 at the sample table and the absent device `"C"`. -/
theorem C10_witness :
    (update_dashboard sampleRows "C").summary
      = "🔋 Total Energy Used: 0.00 kWh | 💰 Total Cost: $0.00" :=
  (C10_unknown_device sampleRows "C" (by decide) (by with_unfolding_all decide)).2.2.2
